import Mathlib

/-!
Verification of the Satty singleton-daemon IPC subsystem.

Shallow embedding of the code in src/ipc.rs, src/daemon.rs, src/client.rs and
the client-facing part of src/main.rs.  Effectful Rust code is modelled by
pure functions that return the externally observable actions explicitly: the
response value handed back to the transport, the list of futures spawned on
the host event loop, and the application-channel events emitted.  Host
facilities (the pixbuf loader, path canonicalization) enter as function
parameters, since their behaviour is outside this repository.
-/

namespace Satty

/-- Abstract decoded image handle (a gdk `Pixbuf`).  Its contents are opaque
to the IPC subsystem; only its identity flows through the event channel. -/
structure Pixbuf where
  id : Nat
deriving DecidableEq

/-- Application event-channel inputs, from `enum AppInput` in src/main.rs.
GUI-only payloads are abstracted to plain values. -/
inductive AppInput
  | Realized
  | SetToolbarsDisplay (b : Bool)
  | ToggleToolbarsDisplay
  | ToolSwitchShortcut (tool : Nat)
  | ColorSwitchShortcut (c : Nat)
  | LoadNewImage (p : Pixbuf)
  | ShowWindow
  | HideWindow
  | RequestExit
deriving DecidableEq

/-- `enum IpcMessage`, src/ipc.rs lines 8-13. -/
inductive IpcMessage
  | LoadImage (filename : String)
  | Shutdown
  | Ping
deriving DecidableEq

/-- `enum IpcResponse`, src/ipc.rs lines 15-20. -/
inductive IpcResponse
  | Ok
  | Error (reason : String)
  | Pong
deriving DecidableEq

/-- GLib variant values, restricted to the shapes this protocol ever builds:
a one-string tuple `(s,)`, the empty tuple `()`, and `other` standing for any
other variant shape (on which a `.get::<(String,)>()` fails). -/
inductive Variant
  | tuple1 (s : String)
  | unit
  | other
deriving DecidableEq

/-- `params.get::<(String,)>()` on a variant: succeeds exactly on the
one-string tuple shape. -/
def Variant.getString1 : Variant → Option String
  | .tuple1 s => some s
  | _ => none

/-- The two gio DBus error domains used by the decoder (src/ipc.rs). -/
inductive DBusErrorKind
  | InvalidArgs
  | UnknownMethod
deriving DecidableEq

/-- A `glib::Error`: an error domain plus a human-readable message. -/
structure GError where
  domain : DBusErrorKind
  message : String
deriving DecidableEq

/-- `IpcMessage::from_method_call`, src/ipc.rs lines 43-64: decode a method
name and parameter variant into a typed message, or fail with a DBus error. -/
def IpcMessage.from_method_call (method : String) (params : Variant) :
    Except GError IpcMessage :=
  if method = "LoadImage" then
    match params.getString1 with
    | some filename => .ok (.LoadImage filename)
    | none => .error ⟨.InvalidArgs, "Invalid filename parameter"⟩
  else if method = "Shutdown" then .ok .Shutdown
  else if method = "Ping" then .ok .Ping
  else .error ⟨.UnknownMethod, "Unknown method"⟩

/-- `IpcResponse::to_variant`, src/ipc.rs lines 67-75: the wire string for a
response, wrapped in a one-string tuple variant. -/
def IpcResponse.to_variant : IpcResponse → Variant
  | .Ok => .tuple1 "Ok"
  | .Error msg => .tuple1 ("Error: " ++ msg)
  | .Pong => .tuple1 "Pong"

/-- Client-side encoding of a message into a (method name, parameters) pair,
from `IpcClient::send_message`, src/ipc.rs lines 130-134. -/
def encodeMessage : IpcMessage → String × Variant
  | .LoadImage filename => ("LoadImage", .tuple1 filename)
  | .Shutdown => ("Shutdown", .unit)
  | .Ping => ("Ping", .unit)

/-- Rust `str::strip_prefix(pre).unwrap_or(s)` on character lists: drop the
matched front when `pre` is a prefix of `s`, else return `s` unchanged. -/
def stripPrefixOr (pre s : List Char) : List Char :=
  if pre.isPrefixOf s then s.drop pre.length else s

/-- Client-side classification of the returned wire string, from
`IpcClient::send_message`, src/ipc.rs lines 154-162. -/
def decodeResponse (s : String) : IpcResponse :=
  if "Error:".toList.isPrefixOf s.toList then
    .Error (String.mk (stripPrefixOr "Error: ".toList s.toList))
  else if s = "Pong" then .Pong
  else .Ok

/-- A future spawned by the daemon's dispatch closure onto the host event
loop (`glib::spawn_future_local`), src/daemon.rs lines 54-79. -/
inductive DeferredTask
  | exitProcess
  | handleMessage (m : IpcMessage)
deriving DecidableEq

/-- The externally observable outcome of one run of the dispatch closure: the
synchronous response plus the futures spawned and the application-channel
events emitted while the closure itself ran. -/
structure DispatchResult where
  response : IpcResponse
  deferred : List DeferredTask
  appEvents : List AppInput
deriving DecidableEq

/-- The daemon's registered dispatch closure, src/daemon.rs lines 54-79.
`Ping` answers `Pong` with no side effect, `Shutdown` spawns a process-exit
future and answers `Ok`, and the remaining variant (`LoadImage`) spawns
`handle_message` on itself and answers `Ok`.  No arm emits on the
application channel synchronously. -/
def dispatch : IpcMessage → DispatchResult
  | .Ping => ⟨.Pong, [], []⟩
  | .Shutdown => ⟨.Ok, [.exitProcess], []⟩
  | .LoadImage filename => ⟨.Ok, [.handleMessage (.LoadImage filename)], []⟩

/-- `DaemonServer::handle_message`, src/daemon.rs lines 84-105: for a
`LoadImage` it spawns one image-load future (returned here as the filename it
will load); for every other message it does nothing. -/
def handle_message : IpcMessage → List String
  | .LoadImage filename => [filename]
  | _ => []

/-- The image-load future spawned inside `handle_message`, src/daemon.rs
lines 88-100: decode the file via the host pixbuf loader; on success feed
`LoadNewImage` then `ShowWindow` into the application channel, on failure log
and feed `HideWindow`. -/
def loadImageTask (loadPixbuf : String → Except String Pixbuf)
    (filename : String) : List AppInput :=
  match loadPixbuf filename with
  | .ok pixbuf => [.LoadNewImage pixbuf, .ShowWindow]
  | .error _ => [.HideWindow]

/-- How a method invocation is answered on the bus: a value reply
(`invocation.return_value`) or an error reply (`invocation.return_gerror`). -/
inductive MethodReply
  | value (v : Variant)
  | gerror (e : GError)
deriving DecidableEq

/-- The daemon's complete per-call behaviour, combining the transport glue of
`IpcServer::register_object` (src/ipc.rs lines 101-115) with the dispatch
closure of src/daemon.rs: decode, then either run the handler and return its
response as a value, or return the decode error as an error reply.  The
second component is the list of futures the call spawned; a decode failure
spawns none, so it cannot schedule a process exit. -/
def serverHandleCall (method : String) (params : Variant) :
    MethodReply × List DeferredTask :=
  match IpcMessage.from_method_call method params with
  | .ok message =>
      (.value (dispatch message).response.to_variant, (dispatch message).deferred)
  | .error e => (.gerror e, [])

/-- DBus `RequestName` flag: allow a later explicitly-replacing owner to take
the name over (value fixed by the DBus specification). -/
def DBUS_NAME_FLAG_ALLOW_REPLACEMENT : Nat := 1

/-- DBus `RequestName` flag: replace an existing owner (value fixed by the
DBus specification; NOT passed by the daemon). -/
def DBUS_NAME_FLAG_REPLACE_EXISTING : Nat := 2

/-- DBus `RequestName` flag: do not queue behind an existing owner (value
fixed by the DBus specification). -/
def DBUS_NAME_FLAG_DO_NOT_QUEUE : Nat := 4

/-- The flag word the daemon passes to `RequestName`: literally `1u32 | 4u32`
in src/daemon.rs line 33. -/
def requestNameFlags : Nat := 1 ||| 4

/-- The daemon's handling of the numeric `RequestName` reply, src/daemon.rs
lines 44-50: 1 (primary owner) and 4 (already owner) proceed; 2 (in queue)
and 3 (exists) abort with distinct errors; anything else aborts as unknown.
The surrounding `run` returns the error immediately: there is no loop, retry
or poll around this match. -/
def handleNameResult (name_result : Nat) : Except String Unit :=
  match name_result with
  | 1 => .ok ()
  | 2 => .error "Daemon already running on DBus"
  | 3 => .error "Name already exists on DBus"
  | 4 => .ok ()
  | n => .error ("Unknown name request result: " ++ toString n)

/-- An `anyhow` transport error surfaced by `IpcClient::send_message`
(connection failure, call timeout, unparsable reply), kept abstract as its
message string. -/
abbrev IpcError := String

/-- `Client::ping`, src/client.rs lines 44-49, as a function of the
`send_message` outcome: the `?` operator propagates only the transport error;
any successfully decoded response (including `Error(..)`) yields `Ok(())`. -/
def pingOutcome (r : Except IpcError IpcResponse) : Except IpcError Unit :=
  match r with
  | .ok _ => .ok ()
  | .error e => .error e

/-- `Client::shutdown`, src/client.rs lines 51-56: same shape as `ping`. -/
def shutdownOutcome (r : Except IpcError IpcResponse) : Except IpcError Unit :=
  match r with
  | .ok _ => .ok ()
  | .error e => .error e

/-- The tail of `Client::send_image`, src/client.rs lines 32-41: the match on
the `send_message` outcome ignores which response variant arrived. -/
def sendImageOutcome (r : Except IpcError IpcResponse) : Except IpcError Unit :=
  match r with
  | .ok _ => .ok ()
  | .error e => .error e

/-- Process exit code of a client invocation: `main` (src/main.rs lines
493-512) returns the client operation's `Result`, which the runtime maps to
exit code 0 on `Ok` and a non-zero code on `Err`. -/
def exitCode : Except IpcError Unit → Nat
  | .ok _ => 0
  | .error _ => 1

/-- The temporary file path used for stdin input, src/client.rs line 13:
`temp_dir.join(format!("satty-{}.png", std::process::id()))`.  It depends
only on the temp directory and the current process id. -/
def tempFilePath (tempDir : String) (pid : Nat) : String :=
  tempDir ++ "/satty-" ++ toString pid ++ ".png"

/-- What `Client::send_image` has done by the time it hands the message to
`IpcClient::send_message`: the message itself, the files it wrote (path and
bytes) and the files it deleted. -/
structure SendImagePrepared where
  message : IpcMessage
  filesWritten : List (String × List Nat)
  filesDeleted : List String
deriving DecidableEq

/-- The path-resolution front of `Client::send_image`, src/client.rs lines
10-30.  `canonicalize` stands for `fs::canonicalize` composed with
`to_string_lossy` (an absolute resolved path on success); `stdinBytes` is
what `read_to_end` buffered from standard input.  For "-" the buffered bytes
are written to the pid-derived temp file and that path is sent; otherwise the
canonicalized path is sent, and a canonicalization failure aborts with a
context-wrapped error before anything is sent.  No branch deletes a file. -/
def prepareSendImage (canonicalize : String → Except String String)
    (tempDir : String) (pid : Nat) (stdinBytes : List Nat)
    (filename : String) : Except String SendImagePrepared :=
  if filename = "-" then
    .ok ⟨.LoadImage (tempFilePath tempDir pid),
         [(tempFilePath tempDir pid, stdinBytes)], []⟩
  else
    match canonicalize filename with
    | .ok resolved => .ok ⟨.LoadImage resolved, [], []⟩
    | .error _ => .error ("Failed to resolve image file path: " ++ filename)

/-- C1: On startup the daemon requests the well-known name with exactly the
two flags allow-replacement (1) and do-not-queue (4) set — replace-existing
(2) is not set — and handles the numeric reply as a four-outcome state
machine: 1 (primary owner) and 4 (already owner) proceed to serve, 2 (in
queue) aborts with the distinct "already running" error, 3 (exists) aborts
with the distinct "name already exists" error.  `handleNameResult` is a
single pure match whose error return aborts `run` at once, so startup never
retries or polls after a fatal outcome. -/
theorem daemon_name_arbitration :
    requestNameFlags = DBUS_NAME_FLAG_ALLOW_REPLACEMENT ||| DBUS_NAME_FLAG_DO_NOT_QUEUE
    ∧ requestNameFlags = 5
    ∧ requestNameFlags.testBit 0 = true
    ∧ requestNameFlags.testBit 1 = false
    ∧ requestNameFlags.testBit 2 = true
    ∧ handleNameResult 1 = .ok ()
    ∧ handleNameResult 4 = .ok ()
    ∧ handleNameResult 2 = .error "Daemon already running on DBus"
    ∧ handleNameResult 3 = .error "Name already exists on DBus"
    ∧ ("Daemon already running on DBus" : String) ≠ "Name already exists on DBus" := by
  refine ⟨rfl, by decide, by decide, by decide, by decide, rfl, rfl, rfl, rfl, by decide⟩

/-- C2: For a decoded `Shutdown` the dispatch closure returns the `Ok`
response synchronously, while the process exit appears only as a future
spawned on the host event loop (`exitProcess` in the deferred list), and
nothing is emitted on the application channel.  The exit is therefore never
executed inside the closure itself, so the transport flushes `Ok` to the
caller before the scheduled exit runs. -/
theorem shutdown_ack_then_deferred_exit :
    dispatch .Shutdown = ⟨.Ok, [.exitProcess], []⟩ := rfl

/-- C3: A decoded `LoadImage` is acknowledged synchronously with `Ok` while
the work is deferred: the dispatch closure spawns `handle_message`, which
spawns one image-load future for the given filename; that future emits
`LoadNewImage` then `ShowWindow` when the host pixbuf loader succeeds, and
only `HideWindow` when it fails (the error being logged), with no other
effect on the daemon. -/
theorem loadimage_ack_and_deferred_load
    (loadPixbuf : String → Except String Pixbuf) (filename : String) :
    (dispatch (.LoadImage filename)).response = .Ok
    ∧ (dispatch (.LoadImage filename)).deferred = [.handleMessage (.LoadImage filename)]
    ∧ (dispatch (.LoadImage filename)).appEvents = []
    ∧ handle_message (.LoadImage filename) = [filename]
    ∧ (∀ pixbuf, loadPixbuf filename = .ok pixbuf →
        loadImageTask loadPixbuf filename = [.LoadNewImage pixbuf, .ShowWindow])
    ∧ (∀ e, loadPixbuf filename = .error e →
        loadImageTask loadPixbuf filename = [.HideWindow]) := by
  refine ⟨rfl, rfl, rfl, rfl, ?_, ?_⟩
  · intro pixbuf h
    simp [loadImageTask, h]
  · intro e h
    simp [loadImageTask, h]

/-- Witness for C3 at a concrete loader and filename, one succeeding and one
failing. -/
theorem loadimage_ack_and_deferred_load_witness :
    loadImageTask (fun _ => .ok ⟨0⟩) "a.png" = [.LoadNewImage ⟨0⟩, .ShowWindow]
    ∧ loadImageTask (fun _ => .error "no such file") "b.png" = [.HideWindow] :=
  ⟨(loadimage_ack_and_deferred_load (fun _ => .ok ⟨0⟩) "a.png").2.2.2.2.1 ⟨0⟩ rfl,
   (loadimage_ack_and_deferred_load (fun _ => .error "no such file")
     "b.png").2.2.2.2.2 "no such file" rfl⟩

/-- C4: Whenever decoding of an incoming call fails, the daemon answers with
the structured error reply for exactly that decode error and spawns no
futures — in particular no process exit — so the failure never propagates
and the (pure, total) handler keeps serving subsequent calls unchanged. -/
theorem decode_failure_is_isolated (method : String) (params : Variant)
    (e : GError) (h : IpcMessage.from_method_call method params = .error e) :
    serverHandleCall method params = (.gerror e, []) := by
  simp [serverHandleCall, h]

/-- Witness for C4: an unknown method name and a `LoadImage` call whose
payload lacks a string argument both produce error replies and no tasks. -/
theorem decode_failure_is_isolated_witness :
    serverHandleCall "Bogus" .unit = (.gerror ⟨.UnknownMethod, "Unknown method"⟩, [])
    ∧ serverHandleCall "LoadImage" .unit
      = (.gerror ⟨.InvalidArgs, "Invalid filename parameter"⟩, []) :=
  ⟨decode_failure_is_isolated "Bogus" .unit _ rfl,
   decode_failure_is_isolated "LoadImage" .unit _ rfl⟩

/-- C5 counterexample: the claim says a structured `Error` response from the
daemon yields a non-zero exit code.  On the code it does not: when
`send_message` returns `Ok(IpcResponse::Error("daemon rejected"))`, all three
client operations return `Ok(())` and the process exit code is 0. -/
theorem client_error_response_exits_zero :
    exitCode (pingOutcome (.ok (.Error "daemon rejected"))) = 0
    ∧ exitCode (shutdownOutcome (.ok (.Error "daemon rejected"))) = 0
    ∧ exitCode (sendImageOutcome (.ok (.Error "daemon rejected"))) = 0 :=
  ⟨rfl, rfl, rfl⟩

/-- C5 amended: each client operation's exit code tracks only the transport
outcome of `send_message`: 0 exactly when a response was received and decoded
(whatever its variant, `Error(..)` included), non-zero exactly on an
`IpcError`. -/
theorem client_exit_code_tracks_transport (r : Except IpcError IpcResponse) :
    exitCode (pingOutcome r) = (match r with | .ok _ => 0 | .error _ => 1)
    ∧ exitCode (shutdownOutcome r) = (match r with | .ok _ => 0 | .error _ => 1)
    ∧ exitCode (sendImageOutcome r) = (match r with | .ok _ => 0 | .error _ => 1) := by
  cases r <;> exact ⟨rfl, rfl, rfl⟩

/-- C6: decoding the (method name, payload) pair produced by the client-side
encoding returns exactly the original message, for all three variants and
any filename string. -/
theorem message_roundtrip (m : IpcMessage) :
    IpcMessage.from_method_call (encodeMessage m).1 (encodeMessage m).2 = .ok m := by
  cases m <;> rfl

/-- C7: the dispatch closure is a total function returning exactly one
response per decoded message, with the logically compatible pairing: `Ping`
is answered `Pong` immediately with no spawned future and no channel
traffic, `Shutdown` is answered `Ok`, and `LoadImage` is answered `Ok`
(hence `Ok` or `Error`). -/
theorem dispatch_response_pairing (m : IpcMessage) :
    (dispatch m).response = (match m with | .Ping => .Pong | _ => .Ok)
    ∧ dispatch .Ping = ⟨.Pong, [], []⟩
    ∧ (dispatch .Shutdown).response = .Ok
    ∧ ∀ filename, (dispatch (.LoadImage filename)).response = .Ok
        ∨ ∃ reason, (dispatch (.LoadImage filename)).response = .Error reason := by
  refine ⟨?_, rfl, rfl, fun filename => Or.inl rfl⟩
  cases m <;> rfl

/-- C8: `send_image` always hands the transport a `LoadImage` carrying a
path produced by the client-side resolver: for "-" it writes the buffered
stdin bytes to the pid-derived temp file and sends that file's path, deleting
nothing; for an ordinary path it sends the canonicalized (absolute, resolved)
path when canonicalization succeeds and aborts before sending when it
fails. -/
theorem send_image_path_resolution
    (canonicalize : String → Except String String) (tempDir : String)
    (pid : Nat) (stdinBytes : List Nat) (filename : String) :
    (filename = "-" →
      prepareSendImage canonicalize tempDir pid stdinBytes filename =
        .ok ⟨.LoadImage (tempFilePath tempDir pid),
             [(tempFilePath tempDir pid, stdinBytes)], []⟩)
    ∧ (filename ≠ "-" → ∀ resolved, canonicalize filename = .ok resolved →
        prepareSendImage canonicalize tempDir pid stdinBytes filename =
          .ok ⟨.LoadImage resolved, [], []⟩)
    ∧ (filename ≠ "-" → ∀ e, canonicalize filename = .error e →
        prepareSendImage canonicalize tempDir pid stdinBytes filename =
          .error ("Failed to resolve image file path: " ++ filename)) := by
  refine ⟨?_, ?_, ?_⟩
  · intro h
    simp [prepareSendImage, h]
  · intro h resolved hc
    simp [prepareSendImage, h, hc]
  · intro h e hc
    simp [prepareSendImage, h, hc]

/-- Witness for C8 on concrete inputs: the stdin case, a resolvable path and
an unresolvable path. -/
theorem send_image_path_resolution_witness :
    prepareSendImage (fun _ => .ok "/abs/a.png") "/tmp" 7 [1, 2] "-" =
      .ok ⟨.LoadImage "/tmp/satty-7.png", [("/tmp/satty-7.png", [1, 2])], []⟩
    ∧ prepareSendImage (fun _ => .ok "/abs/a.png") "/tmp" 7 [] "a.png" =
      .ok ⟨.LoadImage "/abs/a.png", [], []⟩
    ∧ prepareSendImage (fun _ => .error "ENOENT") "/tmp" 7 [] "missing.png" =
      .error "Failed to resolve image file path: missing.png" :=
  ⟨(send_image_path_resolution (fun _ => .ok "/abs/a.png") "/tmp" 7 [1, 2] "-").1 rfl,
   (send_image_path_resolution (fun _ => .ok "/abs/a.png") "/tmp" 7 [] "a.png").2.1
     (by decide) "/abs/a.png" rfl,
   (send_image_path_resolution (fun _ => .error "ENOENT") "/tmp" 7 [] "missing.png").2.2
     (by decide) "ENOENT" rfl⟩

/-- C9: the client's response classification is total and defaults to
success: a string starting with "Error:" becomes `Error` whose reason is the
remainder after the "Error: " (with space) front when present and the whole
unmodified string otherwise; exactly "Pong" becomes `Pong`; every other
string — the empty string included — becomes `Ok`. -/
theorem response_decoding_defaults_to_ok (s : String) :
    ("Error:".toList.isPrefixOf s.toList = true →
      decodeResponse s = .Error (String.mk
        (if "Error: ".toList.isPrefixOf s.toList then s.toList.drop 7 else s.toList)))
    ∧ ("Error:".toList.isPrefixOf s.toList = false → s = "Pong" →
        decodeResponse s = .Pong)
    ∧ ("Error:".toList.isPrefixOf s.toList = false → s ≠ "Pong" →
        decodeResponse s = .Ok) := by
  have hlen : ("Error: ".toList).length = 7 := rfl
  refine ⟨?_, ?_, ?_⟩
  · intro h
    unfold decodeResponse stripPrefixOr
    rw [if_pos h, hlen]
  · intro h hp
    unfold decodeResponse
    rw [if_neg (by simp only [h]; decide), if_pos hp]
  · intro h hp
    unfold decodeResponse
    rw [if_neg (by simp only [h]; decide), if_neg hp]

/-- Witness for C9: the five representative wire strings — a well-formed
error, an error missing the space, the pong literal, the empty string and
garbage. -/
theorem response_decoding_defaults_to_ok_witness :
    decodeResponse "Error: boom" = .Error "boom"
    ∧ decodeResponse "Error:boom" = .Error "Error:boom"
    ∧ decodeResponse "Pong" = .Pong
    ∧ decodeResponse "" = .Ok
    ∧ decodeResponse "garbage" = .Ok :=
  ⟨(response_decoding_defaults_to_ok "Error: boom").1 (by decide),
   (response_decoding_defaults_to_ok "Error:boom").1 (by decide),
   (response_decoding_defaults_to_ok "Pong").2.1 (by decide) rfl,
   (response_decoding_defaults_to_ok "").2.2 (by decide) (by decide),
   (response_decoding_defaults_to_ok "garbage").2.2 (by decide) (by decide)⟩

/-- C10: for every successfully decoded message the daemon's handler returns
`Pong` (for `Ping`) or `Ok` (for `Shutdown` and `LoadImage`) and never the
`Error` variant, so the handler path never produces the "Error: <reason>"
wire string: the response's variant encoding differs from every such
string. -/
theorem handler_never_returns_error (m : IpcMessage) :
    (dispatch m).response = (match m with | .Ping => .Pong | _ => .Ok)
    ∧ (∀ reason, (dispatch m).response ≠ .Error reason)
    ∧ (∀ reason, (dispatch m).response.to_variant ≠ .tuple1 ("Error: " ++ reason)) := by
  have hresp : (dispatch m).response = .Pong ∨ (dispatch m).response = .Ok := by
    cases m
    · exact Or.inr rfl
    · exact Or.inr rfl
    · exact Or.inl rfl
  refine ⟨by cases m <;> rfl, ?_, ?_⟩
  · intro reason hcontra
    rcases hresp with h | h <;> rw [h] at hcontra <;> exact IpcResponse.noConfusion hcontra
  · intro reason hcontra
    rcases hresp with h | h <;>
      rw [h] at hcontra <;>
      simp only [IpcResponse.to_variant, Variant.tuple1.injEq] at hcontra <;>
      have hl := congrArg String.length hcontra <;>
      rw [String.length_append] at hl <;>
      simp only [show ("Pong" : String).length = 4 from rfl,
        show ("Ok" : String).length = 2 from rfl,
        show ("Error: " : String).length = 7 from rfl] at hl <;>
      omega

/-- Witness for C10 at the three concrete messages. -/
theorem handler_never_returns_error_witness :
    (dispatch .Ping).response ≠ .Error "x"
    ∧ (dispatch .Shutdown).response ≠ .Error "x"
    ∧ (dispatch (.LoadImage "a.png")).response.to_variant ≠ .tuple1 ("Error: " ++ "x") :=
  ⟨(handler_never_returns_error .Ping).2.1 "x",
   (handler_never_returns_error .Shutdown).2.1 "x",
   (handler_never_returns_error (.LoadImage "a.png")).2.2 "x"⟩

end Satty
